import Mathlib

/-!
Shallow embedding of `demandlib/particular_profiles.py`
(`IndustrialLoadProfile` and its `simple_profile` method).

Modelling conventions:
* Python floats are modelled as exact rationals `ℚ`; a value that pandas
  would render as a non-finite float (NaN or ±Inf, e.g. after a division
  by zero) is modelled as `none : Option ℚ`.
* A pandas `DatetimeIndex` entry is modelled by its time of day in
  seconds since midnight together with the `weekday` classification
  label attached at construction by `add_weekdays2df`.
* The instance's `self.dataframe` is the state `LoadState`: the index
  rows (with their `weekday` column) plus the working column `ind`.
* `dict` arguments are association lists keyed by `String`, with
  `List.lookup` playing the role of `dict.__getitem__` / `in`.
-/

namespace Demandlib

/-- One row of the internal dataframe: the timestamp's time of day in
seconds since midnight, and the `weekday` classification label
(0 = holiday, 1–7 = ISO weekday) attached at construction. -/
structure Row where
  tod : Nat
  weekday : Nat
deriving DecidableEq

/-- The state of an `IndustrialLoadProfile` instance
(`self.dataframe`): the index with its `weekday` column, the sampling
frequency of the index in nanoseconds (`index.freq.nanos`), and the
working column `ind` (absent at construction, hence initially `[]`;
entries are `Option ℚ`, `none` standing for a null/NaN float). -/
structure LoadState where
  index : List Row
  freqNanos : Nat
  ind : List (Option ℚ)
deriving DecidableEq

/-- The `profile_factors` dictionary: group key ↦ (sub-key ↦ factor). -/
abbrev Factors := List (String × List (String × ℚ))

/-- The keyword arguments of `simple_profile`, with the same names as in
the source (`am`/`pm` as seconds since midnight). -/
structure Args where
  am : Nat
  pm : Nat
  week : List Nat
  weekend : List Nat
  holiday : List Nat
  profile_factors : Factors
deriving DecidableEq

/-- `default_factors` from the source (0.8 = 4/5 etc. as exact
rationals). -/
def default_factors : Factors :=
  [("week", [("day", (0.8 : ℚ)), ("night", 0.6)]),
   ("weekend", [("day", (0.9 : ℚ)), ("night", 0.7)]),
   ("holiday", [("day", (0.9 : ℚ)), ("night", 0.7)])]

/-- The default keyword arguments of `simple_profile`:
`am = time(7, 0, 0)` (= 25200 s), `pm = time(23, 30, 0)` (= 84600 s),
`week = [1..5]`, `weekend = [6, 7]`, `holiday = [0]`. -/
def defaultArgs : Args :=
  ⟨25200, 84600, [1, 2, 3, 4, 5], [6, 7], [0], default_factors⟩

/-- The exception raised by the `profile_factors` validation loop
(`raise ValueError(...)` in the source). -/
inductive Err where
  | valueError (msg : String)
deriving DecidableEq

/-- One iteration of the validation loop over
`["week", "weekend", "holiday"]`: key present, then its `day`, then its
`night` sub-key (error messages without the source's quote marks). -/
def checkOne (pf : Factors) (key : String) : Except Err Unit :=
  match pf.lookup key with
  | none => Except.error (Err.valueError ("Missing entry for " ++ key ++ " in profile_factors."))
  | some sub =>
    if (sub.lookup "day").isNone then
      Except.error (Err.valueError ("Missing entry for day in profile_factors for " ++ key ++ "."))
    else if (sub.lookup "night").isNone then
      Except.error (Err.valueError ("Missing entry for night in profile_factors for " ++ key ++ "."))
    else Except.ok ()

/-- The whole validation loop, in source order. -/
def checkFactors (pf : Factors) : Except Err Unit :=
  match checkOne pf "week" with
  | Except.error e => Except.error e
  | Except.ok _ =>
    match checkOne pf "weekend" with
    | Except.error e => Except.error e
    | Except.ok _ => checkOne pf "holiday"

/-- One group key is well-formed: present, with both `day` and `night`
sub-keys. -/
def hasOne (pf : Factors) (key : String) : Bool :=
  match pf.lookup key with
  | none => false
  | some sub => !(sub.lookup "day").isNone && !(sub.lookup "night").isNone

/-- Boolean version of the validation: all three group keys present,
each with both `day` and `night` sub-keys. -/
def hasAllFactors (pf : Factors) : Bool :=
  hasOne pf "week" && hasOne pf "weekend" && hasOne pf "holiday"

/-- `profile_factors[g][sub]`; the `getD` fallbacks are never reached
after `checkFactors` succeeded. -/
def getF (pf : Factors) (g sub : String) : ℚ :=
  (((pf.lookup g).getD []).lookup sub).getD 0

/-- `DatetimeIndex.indexer_between_time s e` with the default
`include_start = include_end = True`: for `s ≤ e` the closed interval
`[s, e]` of times of day; for `s > e` it wraps past midnight. -/
def betweenTime (s e t : Nat) : Bool :=
  if s ≤ e then decide (s ≤ t) && decide (t ≤ e)
  else decide (s ≤ t) || decide (t ≤ e)

/-- `day_filter`: membership in `indexer_between_time(am, pm)`. -/
def dayB (a : Args) (r : Row) : Bool := betweenTime a.am a.pm r.tod

/-- `night_filter`: membership in `indexer_between_time(pm, am)`. -/
def nightB (a : Args) (r : Row) : Bool := betweenTime a.pm a.am r.tod

/-- `week_filter`: `dataframe["weekday"].isin(week)`. -/
def weekB (a : Args) (r : Row) : Bool := a.week.contains r.weekday

/-- `weekend_filter`: `dataframe["weekday"].isin(weekend)`. -/
def weekendB (a : Args) (r : Row) : Bool := a.weekend.contains r.weekday

/-- `holiday_filter`: `dataframe["weekday"].isin(holiday)`. -/
def holidayB (a : Args) (r : Row) : Bool := a.holiday.contains r.weekday

/-- One masked assignment `dataframe.loc[mask, "ind"] = v`: each slot
whose row satisfies `cond` is overwritten with `v`. -/
def updateCol (rows : List Row) (col : List (Option ℚ)) (cond : Row → Bool) (v : ℚ) :
    List (Option ℚ) :=
  List.zipWith (fun r x => if cond r then some v else x) rows col

/-- The `ind` column after `self.dataframe["ind"] = 0.0` followed by the
six masked assignments, in source order: (day,week), (night,week),
(day,weekend), (night,weekend), (day,holiday), (night,holiday). -/
def indColumn (a : Args) (rows : List Row) : List (Option ℚ) :=
  let pf := a.profile_factors
  let c0 := rows.map (fun _ => some (0 : ℚ))
  let c1 := updateCol rows c0 (fun r => dayB a r && weekB a r) (getF pf "week" "day")
  let c2 := updateCol rows c1 (fun r => nightB a r && weekB a r) (getF pf "week" "night")
  let c3 := updateCol rows c2 (fun r => dayB a r && weekendB a r) (getF pf "weekend" "day")
  let c4 := updateCol rows c3 (fun r => nightB a r && weekendB a r) (getF pf "weekend" "night")
  let c5 := updateCol rows c4 (fun r => dayB a r && holidayB a r) (getF pf "holiday" "day")
  updateCol rows c5 (fun r => nightB a r && holidayB a r) (getF pf "holiday" "night")

/-- The per-row value the six sequential masked writes leave behind
(later writes win, so the tests appear in reverse source order). -/
def rowFactor (a : Args) (r : Row) : Option ℚ :=
  if nightB a r && holidayB a r then some (getF a.profile_factors "holiday" "night")
  else if dayB a r && holidayB a r then some (getF a.profile_factors "holiday" "day")
  else if nightB a r && weekendB a r then some (getF a.profile_factors "weekend" "night")
  else if dayB a r && weekendB a r then some (getF a.profile_factors "weekend" "day")
  else if nightB a r && weekB a r then some (getF a.profile_factors "week" "night")
  else if dayB a r && weekB a r then some (getF a.profile_factors "week" "day")
  else some (0 : ℚ)

/-- `Series.sum()` with pandas' default `skipna=True`: null entries
contribute nothing. -/
def colSum (col : List (Option ℚ)) : ℚ := (col.map (fun x => x.getD 0)).sum

/-- Pandas float division: dividing by zero yields a non-finite float
(NaN or ±Inf), modelled as `none`; a null numerator stays null. -/
def safeDiv (x : Option ℚ) (d : ℚ) : Option ℚ :=
  x.bind (fun q => if d = 0 then none else some (q / d))

/-- `index.freq.nanos / 3.6e12`: the sampling interval in hours. -/
def timeInterval (st : LoadState) : ℚ := (st.freqNanos : ℚ) / 3600000000000

/-- What `simple_profile` hands back: the returned series, plus whether
the `isnull().any()` check fired (i.e. `logging.error` was called). -/
structure SimpleResult where
  series : List (Option ℚ)
  nanLogged : Bool
deriving DecidableEq

/-- `IndustrialLoadProfile.simple_profile(annual_demand, **kwargs)`.
Returns the state after the call (the validation raises before any
mutation, so on error the state is unchanged) and either the raised
exception or the returned series `ind / ind.sum() * annual_demand /
time_interval` together with the NaN-logging flag. -/
def simple_profile (st : LoadState) (annual_demand : ℚ) (a : Args) :
    LoadState × Except Err SimpleResult :=
  match checkFactors a.profile_factors with
  | Except.error e => (st, Except.error e)
  | Except.ok _ =>
    let c := indColumn a st.index
    let nanLogged := c.any (fun x => x.isNone)
    let total := colSum c
    let interval := timeInterval st
    let out := c.map (fun x =>
      safeDiv ((safeDiv x total).map (fun q => q * annual_demand)) interval)
    (⟨st.index, st.freqNanos, c⟩, Except.ok ⟨out, nanLogged⟩)

/-- A sequence of `simple_profile` calls on the same instance; only the
evolving state is kept. -/
def runCalls (st : LoadState) (calls : List (ℚ × Args)) : LoadState :=
  calls.foldl (fun s c => (simple_profile s c.1 c.2).1) st

/-- A raw timestamp handed to the constructor: calendar date as a day
number (day 0 being a Monday) and time of day in seconds. -/
structure Timestamp where
  date : Int
  tod : Nat
deriving DecidableEq

/-- ISO weekday of a day number (1 = Monday .. 7 = Sunday). -/
def isoWeekday (d : Int) : Nat := (d.emod 7).toNat + 1

/-- Modelled from the spec: the weekday label that
`demandlib.tools.add_weekdays2df` (imported by the source file but not
among the sources at hand) attaches to a timestamp. Per the spec:
assign the ISO weekday (1 = Monday .. 7 = Sunday); override to 0 any
timestamp whose date is in the holiday set; when `holiday_is_sunday` is
set, additionally override Sundays to the holiday label 0. -/
def weekdayLabel (holidays : List Int) (holiday_is_sunday : Bool) (ts : Timestamp) : Nat :=
  if holidays.contains ts.date then 0
  else if holiday_is_sunday && (isoWeekday ts.date == 7) then 0
  else isoWeekday ts.date

/-- `IndustrialLoadProfile.__init__`: build the dataframe over the given
index and attach the weekday classification column; no `ind` column
exists yet. -/
def construct (dt_index : List Timestamp) (freqNanos : Nat) (holidays : List Int)
    (holiday_is_sunday : Bool) : LoadState :=
  ⟨dt_index.map (fun ts => ⟨ts.tod, weekdayLabel holidays holiday_is_sunday ts⟩),
   freqNanos, []⟩

/-! ### Concrete sample data used by witnesses and counterexamples -/

/-- A sample generator state: a Monday morning (08:20) and a Saturday
afternoon (16:40) timestamp at 15-minute resolution (900 s = 9·10¹¹ ns,
so the interval is 0.25 h). -/
def sampleSt : LoadState := ⟨[⟨30000, 1⟩, ⟨60000, 6⟩], 900000000000, []⟩

/-- A valid `profile_factors` dictionary with every factor 0.0. -/
def zero_factors : Factors :=
  [("week", [("day", (0 : ℚ)), ("night", 0)]),
   ("weekend", [("day", (0 : ℚ)), ("night", 0)]),
   ("holiday", [("day", (0 : ℚ)), ("night", 0)])]

/-- Default options except that every factor is 0.0. -/
def zeroArgs : Args :=
  ⟨25200, 84600, [1, 2, 3, 4, 5], [6, 7], [0], zero_factors⟩

/-- A one-row state (a Monday at 08:20) at 15-minute resolution. -/
def degSt : LoadState := ⟨[⟨30000, 1⟩], 900000000000, []⟩

/-- `profile_factors` whose `weekend` entry misses its `night` sub-key. -/
def missing_night_factors : Factors :=
  [("week", [("day", (0.8 : ℚ)), ("night", 0.6)]),
   ("weekend", [("day", (0.9 : ℚ))]),
   ("holiday", [("day", (0.9 : ℚ)), ("night", 0.7)])]

/-- Default options except the malformed `profile_factors`. -/
def missingNightArgs : Args :=
  ⟨25200, 84600, [1, 2, 3, 4, 5], [6, 7], [0], missing_night_factors⟩

/-- A one-row state whose timestamp is exactly `am` (07:00:00) on a
Monday. -/
def amSt : LoadState := ⟨[⟨25200, 1⟩], 900000000000, []⟩

/-- A two-row state containing a weekday label (9) that belongs to none
of the default group sets. -/
def unmatchedSt : LoadState := ⟨[⟨30000, 1⟩, ⟨30000, 9⟩], 900000000000, []⟩

/-- Options whose `week` and `weekend` sets overlap on label 5. -/
def overlapArgs : Args :=
  ⟨25200, 84600, [1, 2, 3, 4, 5], [5, 6, 7], [0], default_factors⟩

/-- A one-row state (label 5, 08:20) used with `overlapArgs`. -/
def overlapSt : LoadState := ⟨[⟨30000, 5⟩], 900000000000, []⟩

/-- A one-row state: a Tuesday at 08:20, strictly inside the default
day window. -/
def daySt : LoadState := ⟨[⟨30000, 2⟩], 900000000000, []⟩

/-! ### Basic lemmas about the embedding -/

theorem updateCol_map (rows : List Row) (f : Row → Option ℚ) (cond : Row → Bool) (v : ℚ) :
    updateCol rows (rows.map f) cond v
      = rows.map (fun r => if cond r then some v else f r) := by
  induction rows with
  | nil => rfl
  | cons r rs ih =>
    simp only [updateCol, List.map_cons, List.zipWith_cons_cons] at ih ⊢
    exact congrArg _ ih

/-- The six sequential masked writes act independently on each row:
the `ind` column is the row-wise `rowFactor`. -/
theorem indColumn_eq_map (a : Args) (rows : List Row) :
    indColumn a rows = rows.map (rowFactor a) := by
  simp only [indColumn, updateCol_map]
  refine List.map_congr_left (fun r _ => ?_)
  simp only [rowFactor]

/-- Every slot of the `ind` column is a genuine float: the column is
pre-filled with `0.0` and only ever overwritten by factor values. -/
theorem rowFactor_isSome (a : Args) (r : Row) : (rowFactor a r).isSome = true := by
  unfold rowFactor
  repeat' split
  all_goals rfl

/-- The two `indexer_between_time` masks jointly cover every time of
day, provided the two boundary times differ. -/
theorem betweenTime_cover (s e t : Nat) (h : s ≠ e) :
    betweenTime s e t = true ∨ betweenTime e s t = true := by
  unfold betweenTime
  split <;> split <;>
    simp only [Bool.and_eq_true, Bool.or_eq_true, decide_eq_true_eq] <;> omega

/-- A single `simple_profile` call only writes the `ind` column: the
index (hence the `weekday` column it carries) and the sampling
frequency are untouched. -/
theorem simple_profile_preserves (st : LoadState) (A : ℚ) (a : Args) :
    (simple_profile st A a).1.index = st.index ∧
      (simple_profile st A a).1.freqNanos = st.freqNanos := by
  unfold simple_profile
  split <;> exact ⟨rfl, rfl⟩

/-- Any sequence of `simple_profile` calls leaves the index and the
sampling frequency as they were. -/
theorem runCalls_preserves (st : LoadState) (calls : List (ℚ × Args)) :
    (runCalls st calls).index = st.index ∧
      (runCalls st calls).freqNanos = st.freqNanos := by
  induction calls generalizing st with
  | nil => exact ⟨rfl, rfl⟩
  | cons c cs ih =>
    have h := simple_profile_preserves st c.1 c.2
    have h' := ih ((simple_profile st c.1 c.2).1)
    exact ⟨h'.1.trans h.1, h'.2.trans h.2⟩

/-- The value returned by `simple_profile` (series or exception) only
depends on the index, its `weekday` column and the sampling frequency —
not on the leftover `ind` column. -/
theorem simple_profile_snd_congr (s₁ s₂ : LoadState) (A : ℚ) (a : Args)
    (h1 : s₁.index = s₂.index) (h2 : s₁.freqNanos = s₂.freqNanos) :
    (simple_profile s₁ A a).2 = (simple_profile s₂ A a).2 := by
  unfold simple_profile
  split
  · rfl
  · simp only [timeInterval, h1, h2]

/-- On a successful call, the `ind` column left in the dataframe is the
row-wise factor assignment. -/
theorem simple_profile_ind (st : LoadState) (A : ℚ) (a : Args)
    (hv : checkFactors a.profile_factors = Except.ok ()) :
    (simple_profile st A a).1.ind = st.index.map (rowFactor a) := by
  simp only [simple_profile, hv]
  exact indColumn_eq_map a st.index

/-- The raw profile value of a row, as a plain rational. -/
def rawQ (a : Args) (r : Row) : ℚ := (rowFactor a r).getD 0

theorem rowFactor_eq_some (a : Args) (r : Row) : rowFactor a r = some (rawQ a r) := by
  have h := rowFactor_isSome a r
  cases hx : rowFactor a r with
  | none => rw [hx] at h; cases h
  | some q => simp [rawQ, hx]

/-- The `ind` column never contains a null, hence the
`isnull().any()` check (and with it `logging.error`) never fires. -/
theorem indColumn_no_none (a : Args) (rows : List Row) :
    (indColumn a rows).any (fun x => x.isNone) = false := by
  rw [indColumn_eq_map, List.any_eq_false]
  intro x hx
  obtain ⟨r, _, rfl⟩ := List.mem_map.1 hx
  simp [rowFactor_eq_some a r]

theorem colSum_map_some (l : List Row) (g : Row → ℚ) :
    colSum (l.map (fun r => some (g r))) = (l.map g).sum := by
  induction l with
  | nil => rfl
  | cons r rs ih => simp only [colSum, List.map_cons, List.sum_cons] at ih ⊢; rw [ih]; rfl

theorem colSum_indColumn (a : Args) (rows : List Row) :
    colSum (indColumn a rows) = (rows.map (rawQ a)).sum := by
  rw [indColumn_eq_map]
  have h : rows.map (rowFactor a) = rows.map (fun r => some (rawQ a r)) :=
    List.map_congr_left (fun r _ => rowFactor_eq_some a r)
  rw [h, colSum_map_some]

theorem sum_map_scale (l : List ℚ) (S A I : ℚ) :
    (l.map (fun q => q / S * A / I)).sum = l.sum / S * A / I := by
  induction l with
  | nil => simp
  | cons q qs ih =>
    simp only [List.map_cons, List.sum_cons, ih]
    ring

/-- Last writer wins: when a row is matched by at least one group
filter and at least one time-window filter, its final `ind` value is
the factor of the *last* matching group in the source's write order
(week, then weekend, then holiday), with the night factor whenever the
night window matches (the night write of each group comes after the
day write). -/
theorem rowFactor_priority (a : Args) (r : Row)
    (hm : weekB a r = true ∨ weekendB a r = true ∨ holidayB a r = true)
    (hw : dayB a r = true ∨ nightB a r = true) :
    rowFactor a r = some (getF a.profile_factors
      (if holidayB a r then "holiday" else if weekendB a r then "weekend" else "week")
      (if nightB a r then "night" else "day")) := by
  unfold rowFactor
  cases hH : holidayB a r <;> cases hWe : weekendB a r <;> cases hW : weekB a r <;>
    cases hN : nightB a r <;> cases hD : dayB a r <;> simp_all

/-- The default `week`/`weekend`/`holiday` sets partition the weekday
labels 0–7: each label belongs to exactly one group. -/
theorem default_groups_partition (r : Row) (h : r.weekday ≤ 7) :
    (weekB defaultArgs r = true ∧ weekendB defaultArgs r = false ∧
        holidayB defaultArgs r = false) ∨
      (weekB defaultArgs r = false ∧ weekendB defaultArgs r = true ∧
        holidayB defaultArgs r = false) ∨
      (weekB defaultArgs r = false ∧ weekendB defaultArgs r = false ∧
        holidayB defaultArgs r = true) := by
  obtain ⟨t, w⟩ := r
  simp only [weekB, weekendB, holidayB, defaultArgs] at *
  interval_cases w <;> decide

/-- With the default `am`/`pm`, the day and night windows cover every
time of day, and they overlap exactly at the two boundary instants
07:00:00 and 23:30:00 (both masks are end-inclusive). -/
theorem default_windows (r : Row) :
    (dayB defaultArgs r = true ∨ nightB defaultArgs r = true) ∧
      ((dayB defaultArgs r = true ∧ nightB defaultArgs r = true) ↔
        (r.tod = 25200 ∨ r.tod = 84600)) := by
  obtain ⟨t, w⟩ := r
  simp [dayB, nightB, betweenTime, defaultArgs]
  omega

/-- The weekday label attached at construction always lies in 0..7. -/
theorem weekdayLabel_le_seven (hol : List Int) (his : Bool) (ts : Timestamp) :
    weekdayLabel hol his ts ≤ 7 := by
  unfold weekdayLabel isoWeekday
  have h1 : 0 ≤ ts.date.emod 7 := Int.emod_nonneg ts.date (by norm_num)
  have h2 : ts.date.emod 7 < 7 := Int.emod_lt_of_pos ts.date (by norm_num)
  split
  · omega
  · split <;> omega

/-- One iteration of the validation loop succeeds exactly when the key
is well-formed; otherwise it raises a `ValueError`. -/
theorem checkOne_cases (pf : Factors) (key : String) :
    (checkOne pf key = Except.ok () ∧ hasOne pf key = true) ∨
      ((∃ msg, checkOne pf key = Except.error (Err.valueError msg)) ∧
        hasOne pf key = false) := by
  cases hL : pf.lookup key with
  | none =>
    refine Or.inr ⟨⟨"Missing entry for " ++ key ++ " in profile_factors.", ?_⟩, ?_⟩
    · simp only [checkOne, hL]
    · simp only [hasOne, hL]
  | some sub =>
    cases hd : (sub.lookup "day").isNone with
    | true =>
      refine Or.inr
        ⟨⟨"Missing entry for day in profile_factors for " ++ key ++ ".", ?_⟩, ?_⟩
      · simp only [checkOne, hL, hd]; rfl
      · simp only [hasOne, hL, hd]; rfl
    | false =>
      cases hn : (sub.lookup "night").isNone with
      | true =>
        refine Or.inr
          ⟨⟨"Missing entry for night in profile_factors for " ++ key ++ ".", ?_⟩, ?_⟩
        · simp only [checkOne, hL, hd, hn]; rfl
        · simp only [hasOne, hL, hd, hn]; rfl
      | false =>
        refine Or.inl ⟨?_, ?_⟩
        · simp only [checkOne, hL, hd, hn]; rfl
        · simp only [hasOne, hL, hd, hn]; rfl

/-- The validation loop succeeds exactly when `hasAllFactors` holds;
otherwise it raises a `ValueError`. -/
theorem checkFactors_cases (pf : Factors) :
    (checkFactors pf = Except.ok () ∧ hasAllFactors pf = true) ∨
      ((∃ msg, checkFactors pf = Except.error (Err.valueError msg)) ∧
        hasAllFactors pf = false) := by
  rcases checkOne_cases pf "week" with ⟨hW, hW'⟩ | ⟨⟨m, hW⟩, hW'⟩
  · rcases checkOne_cases pf "weekend" with ⟨hE, hE'⟩ | ⟨⟨m, hE⟩, hE'⟩
    · rcases checkOne_cases pf "holiday" with ⟨hH, hH'⟩ | ⟨⟨m, hH⟩, hH'⟩
      · exact Or.inl ⟨by simp [checkFactors, hW, hE, hH],
          by simp [hasAllFactors, hW', hE', hH']⟩
      · exact Or.inr ⟨⟨m, by simp [checkFactors, hW, hE, hH]⟩,
          by simp [hasAllFactors, hW', hE', hH']⟩
    · exact Or.inr ⟨⟨m, by simp [checkFactors, hW, hE]⟩,
        by simp [hasAllFactors, hW', hE']⟩
  · exact Or.inr ⟨⟨m, by simp [checkFactors, hW]⟩,
      by simp [hasAllFactors, hW']⟩

/-! ### Claim theorems -/

/-- C1: for a uniformly sampled index (nonzero frequency) and a valid,
non-degenerate factor configuration (raw sum nonzero), `simple_profile`
returns the series `RawProfile / sum(RawProfile) * annual_demand /
time_interval` element-wise, and the sum of the returned series times
the interval in hours is exactly the annual demand. -/
theorem simple_profile_normalization (st : LoadState) (A : ℚ) (a : Args)
    (hv : checkFactors a.profile_factors = Except.ok ())
    (hS : colSum (indColumn a st.index) ≠ 0)
    (hF : st.freqNanos ≠ 0) :
    (simple_profile st A a).2.map (fun res => res.series) =
      Except.ok ((indColumn a st.index).map (Option.map
        (fun q => q / colSum (indColumn a st.index) * A / timeInterval st))) ∧
    (simple_profile st A a).2.map (fun res => colSum res.series * timeInterval st) =
      Except.ok A := by
  have hI : timeInterval st ≠ 0 := by
    unfold timeInterval
    exact div_ne_zero (Nat.cast_ne_zero.2 hF) (by norm_num)
  simp only [simple_profile, hv, Except.map]
  constructor
  · refine congrArg Except.ok ?_
    refine List.map_congr_left (fun x _ => ?_)
    cases x with
    | none => simp [safeDiv]
    | some q => simp [safeDiv, hS, hI]
  · refine congrArg Except.ok ?_
    set S := colSum (indColumn a st.index) with hSdef
    set I := timeInterval st with hIdef
    rw [indColumn_eq_map, List.map_map]
    have h1 : ((fun x => safeDiv ((safeDiv x S).map (fun q => q * A)) I) ∘ rowFactor a)
        = fun r => some (rawQ a r / S * A / I) := by
      funext r
      simp [Function.comp, rowFactor_eq_some a r, safeDiv, hS, hI]
    rw [h1, colSum_map_some]
    have h2 : (st.index.map fun r => rawQ a r / S * A / I)
        = (st.index.map (rawQ a)).map (fun q => q / S * A / I) := by
      rw [List.map_map]
      rfl
    rw [h2, sum_map_scale, ← colSum_indColumn, ← hSdef, div_self hS, one_mul]
    exact div_mul_cancel₀ A hI

/-- C1 witness: two timestamps at 15-minute resolution with the default
options, annual demand 960. -/
theorem simple_profile_normalization_witness :
    (simple_profile sampleSt 960 defaultArgs).2.map (fun res => res.series) =
      Except.ok ((indColumn defaultArgs sampleSt.index).map (Option.map
        (fun q => q / colSum (indColumn defaultArgs sampleSt.index) * 960 /
          timeInterval sampleSt))) ∧
    (simple_profile sampleSt 960 defaultArgs).2.map
        (fun res => colSum res.series * timeInterval sampleSt) =
      Except.ok 960 :=
  simple_profile_normalization sampleSt 960 defaultArgs rfl
    (by norm_num [colSum, indColumn, updateCol, dayB, nightB, weekB, weekendB,
      holidayB, betweenTime, getF, List.lookup, defaultArgs, default_factors, sampleSt])
    (by decide)

/-- C2 counterexample: with every factor 0.0 (a valid configuration),
`simple_profile` does not raise any exception — in particular no
`DegenerateProfileError`, which does not exist in the code — and
returns a series whose entries are all non-finite (`none` models the
NaN produced by the division by the zero sum). -/
theorem degenerate_no_error_counterexample :
    (simple_profile degSt 960 zeroArgs).2 = Except.ok ⟨[none], false⟩ := by
  have hv : checkFactors zeroArgs.profile_factors = Except.ok () := rfl
  have hc : indColumn zeroArgs degSt.index = [some 0] := rfl
  have ht : colSum [some (0 : ℚ)] = 0 := by norm_num [colSum]
  simp only [simple_profile, hv, hc, ht]
  simp [safeDiv]

/-- C2 amended: whenever the raw sum is zero (all factors zero or empty
index), `simple_profile` raises nothing and returns a series all of
whose entries are non-finite (NaN), instead of failing with a
`DegenerateProfileError`. -/
theorem simple_profile_degenerate_nan (st : LoadState) (A : ℚ) (a : Args)
    (hv : checkFactors a.profile_factors = Except.ok ())
    (hS : colSum (indColumn a st.index) = 0) :
    (simple_profile st A a).2.map (fun res => res.series.all (fun x => x.isNone)) =
      Except.ok true := by
  simp only [simple_profile, hv, Except.map]
  refine congrArg Except.ok ?_
  rw [List.all_eq_true]
  intro x hx
  obtain ⟨y, _, rfl⟩ := List.mem_map.1 hx
  cases y <;> simp [safeDiv, hS]

/-- C2 amended witness: the all-zero factor configuration on a one-row
index yields an all-NaN series without raising. -/
theorem simple_profile_degenerate_nan_witness :
    (simple_profile degSt 960 zeroArgs).2.map
        (fun res => res.series.all (fun x => x.isNone)) =
      Except.ok true :=
  simple_profile_degenerate_nan degSt 960 zeroArgs rfl
    (by norm_num [colSum, indColumn, updateCol, dayB, nightB, weekB, weekendB,
      holidayB, betweenTime, getF, List.lookup, zeroArgs, zero_factors, degSt])

/-- C3: whenever `profile_factors` misses one of the three group keys,
or a present group misses its `day` or `night` sub-key, the call fails
with the validation `ValueError` (the spec's ConfigurationError) and
the state is exactly the input state: the error is raised before the
`ind` column is created or any factor applied. -/
theorem simple_profile_config_error (st : LoadState) (A : ℚ) (a : Args)
    (h : hasAllFactors a.profile_factors = false) :
    ∃ msg, simple_profile st A a = (st, Except.error (Err.valueError msg)) := by
  rcases checkFactors_cases a.profile_factors with ⟨_, hall⟩ | ⟨⟨msg, herr⟩, _⟩
  · rw [h] at hall
    exact Bool.noConfusion hall
  · exact ⟨msg, by simp [simple_profile, herr]⟩

/-- C3 witness: omitting the `night` sub-key of the `weekend` entry
makes `simple_profile` fail with the validation error, state
unchanged. -/
theorem simple_profile_config_error_witness :
    ∃ msg, simple_profile sampleSt 960 missingNightArgs =
      (sampleSt, Except.error (Err.valueError msg)) :=
  simple_profile_config_error sampleSt 960 missingNightArgs (by decide)

/-- C6: scaling the annual demand by `k` scales every returned value by
`k`, everything else (generator, options, NaN-logging flag) equal. -/
theorem simple_profile_rescale (st : LoadState) (A k : ℚ) (a : Args)
    (hv : checkFactors a.profile_factors = Except.ok ()) :
    (simple_profile st (k * A) a).2 =
      (simple_profile st A a).2.map (fun res =>
        ⟨res.series.map (Option.map (fun q => k * q)), res.nanLogged⟩) := by
  simp only [simple_profile, hv, Except.map]
  refine congrArg Except.ok ?_
  refine congrArg₂ SimpleResult.mk ?_ rfl
  rw [List.map_map]
  refine List.map_congr_left (fun x _ => ?_)
  by_cases hS : colSum (indColumn a st.index) = 0
  · cases x <;> simp [safeDiv, hS, Function.comp]
  · by_cases hI : timeInterval st = 0
    · cases x <;> simp [safeDiv, hS, hI, Function.comp]
    · cases x with
      | none => simp [safeDiv, Function.comp]
      | some q =>
        simp [safeDiv, hS, hI, Function.comp]
        ring

/-- C6 witness: rescaling the sample call by k = 3. -/
theorem simple_profile_rescale_witness :
    (simple_profile sampleSt (3 * 960) defaultArgs).2 =
      (simple_profile sampleSt 960 defaultArgs).2.map (fun res =>
        ⟨res.series.map (Option.map (fun q => 3 * q)), res.nanLogged⟩) :=
  simple_profile_rescale sampleSt 960 3 defaultArgs rfl

/-- C4 counterexample: a timestamp at exactly `am` (07:00:00) on a
Monday is assigned the week *night* factor, not the day factor: both
inclusive masks match at the boundary and the night write comes last,
so `am` is not classified as day. -/
theorem day_window_am_counterexample :
    (simple_profile amSt 1 defaultArgs).1.ind
        = [some (getF default_factors "week" "night")] ∧
      getF default_factors "week" "night" ≠ getF default_factors "week" "day" := by
  refine ⟨rfl, ?_⟩
  have h1 : getF default_factors "week" "night" = (0.6 : ℚ) := rfl
  have h2 : getF default_factors "week" "day" = (0.8 : ℚ) := rfl
  rw [h1, h2]
  norm_num

/-- C4 amended: with the default options, the effective day
classification is the *open* interval (am, pm): a week timestamp
strictly between 07:00 and 23:30 receives the day factor 0.8, while
one at exactly `am`, exactly `pm`, or outside the window receives the
night factor 0.6 (both boundary instants match both inclusive masks and
the night assignment is written last). -/
theorem simple_profile_day_window_open (st : LoadState) (A : ℚ) (i : Nat) (r : Row)
    (hr : st.index[i]? = some r) (hw : weekB defaultArgs r = true) :
    (simple_profile st A defaultArgs).1.ind[i]? =
      some (some (if 25200 < r.tod ∧ r.tod < 84600 then (0.8 : ℚ) else 0.6)) := by
  rw [simple_profile_ind st A defaultArgs rfl, List.getElem?_map, hr, Option.map_some']
  obtain ⟨t, w⟩ := r
  have hgf : weekendB defaultArgs ⟨t, w⟩ = false ∧ holidayB defaultArgs ⟨t, w⟩ = false := by
    simp [weekB, weekendB, holidayB, defaultArgs] at hw ⊢
    omega
  by_cases hday : 25200 < t ∧ t < 84600
  · have hn : nightB defaultArgs ⟨t, w⟩ = false := by
      simp [nightB, betweenTime, defaultArgs]
      omega
    have hd : dayB defaultArgs ⟨t, w⟩ = true := by
      simp [dayB, betweenTime, defaultArgs]
      omega
    simp only [rowFactor, hn, hd, hw, hgf.1, hgf.2, if_pos hday, Bool.and_self,
      Bool.and_false, Bool.false_and, Bool.and_true, Bool.true_and, if_false,
      Bool.false_eq_true, if_true]
    rfl
  · have hn : nightB defaultArgs ⟨t, w⟩ = true := by
      simp [nightB, betweenTime, defaultArgs]
      omega
    simp only [rowFactor, hn, hw, hgf.1, hgf.2, if_neg hday, Bool.and_self,
      Bool.and_false, Bool.false_and, Bool.and_true, Bool.true_and, if_false,
      Bool.false_eq_true, if_true]
    rfl

/-- C4 amended witness: a Tuesday 08:20 timestamp, strictly inside the
day window, receives the week day factor. -/
theorem simple_profile_day_window_open_witness :
    (simple_profile daySt 5 defaultArgs).1.ind[0]? =
      some (some (if 25200 < (30000 : Nat) ∧ (30000 : Nat) < 84600
        then (0.8 : ℚ) else 0.6)) :=
  simple_profile_day_window_open daySt 5 0 ⟨30000, 2⟩ rfl (by decide)

/-- C5 counterexample: the timestamp 07:00:00 on a Monday lies in the
(week, day) *and* the (week, night) bucket — both inclusive
`between_time` masks match at the boundary, so the six buckets do not
partition the index. -/
theorem bucket_overlap_counterexample :
    dayB defaultArgs ⟨25200, 1⟩ = true ∧ nightB defaultArgs ⟨25200, 1⟩ = true ∧
      weekB defaultArgs ⟨25200, 1⟩ = true := by decide

/-- C5 amended: under the default option sets, every timestamp of a
constructed generator falls into *at least* one bucket: the weekday
groupings partition the labels 0–7 (exactly one group matches), and the
day/night windows cover every time of day — but they overlap exactly at
the boundary instants 07:00:00 and 23:30:00, where a timestamp falls
into both the day and the night bucket of its group. -/
theorem buckets_cover_with_boundary_overlap (dt_index : List Timestamp) (fn : Nat)
    (hol : List Int) (his : Bool) :
    ∀ r ∈ (construct dt_index fn hol his).index,
      ((weekB defaultArgs r = true ∧ weekendB defaultArgs r = false ∧
          holidayB defaultArgs r = false) ∨
        (weekB defaultArgs r = false ∧ weekendB defaultArgs r = true ∧
          holidayB defaultArgs r = false) ∨
        (weekB defaultArgs r = false ∧ weekendB defaultArgs r = false ∧
          holidayB defaultArgs r = true)) ∧
      (dayB defaultArgs r = true ∨ nightB defaultArgs r = true) ∧
      ((dayB defaultArgs r = true ∧ nightB defaultArgs r = true) ↔
        (r.tod = 25200 ∨ r.tod = 84600)) := by
  intro r hr
  have hw : r.weekday ≤ 7 := by
    simp only [construct, List.mem_map] at hr
    obtain ⟨ts, _, rfl⟩ := hr
    exact weekdayLabel_le_seven hol his ts
  exact ⟨default_groups_partition r hw, (default_windows r).1, (default_windows r).2⟩

/-- C5 amended witness: the generator built over a single Monday-08:20
timestamp. -/
theorem buckets_cover_with_boundary_overlap_witness :
    ((weekB defaultArgs ⟨30000, 1⟩ = true ∧ weekendB defaultArgs ⟨30000, 1⟩ = false ∧
        holidayB defaultArgs ⟨30000, 1⟩ = false) ∨
      (weekB defaultArgs ⟨30000, 1⟩ = false ∧ weekendB defaultArgs ⟨30000, 1⟩ = true ∧
        holidayB defaultArgs ⟨30000, 1⟩ = false) ∨
      (weekB defaultArgs ⟨30000, 1⟩ = false ∧ weekendB defaultArgs ⟨30000, 1⟩ = false ∧
        holidayB defaultArgs ⟨30000, 1⟩ = true)) ∧
    (dayB defaultArgs ⟨30000, 1⟩ = true ∨ nightB defaultArgs ⟨30000, 1⟩ = true) ∧
    ((dayB defaultArgs ⟨30000, 1⟩ = true ∧ nightB defaultArgs ⟨30000, 1⟩ = true) ↔
      ((30000 : Nat) = 25200 ∨ (30000 : Nat) = 84600)) :=
  buckets_cover_with_boundary_overlap [⟨0, 30000⟩] 900000000000 [] false
    ⟨30000, 1⟩ (by decide)

/-- C7 counterexample: weekday label 9 belongs to none of the default
group sets, yet no diagnostic is emitted (the NaN-logging flag is
false, because the column was pre-filled with 0.0, not null), nothing
is raised, and the slot keeps the raw value 0.0. -/
theorem unmatched_no_diagnostic_counterexample :
    (weekB defaultArgs ⟨30000, 9⟩ = false ∧ weekendB defaultArgs ⟨30000, 9⟩ = false ∧
      holidayB defaultArgs ⟨30000, 9⟩ = false) ∧
    (simple_profile unmatchedSt 100 defaultArgs).2.map (fun res => res.nanLogged) =
      Except.ok false ∧
    (simple_profile unmatchedSt 100 defaultArgs).1.ind =
      [some (getF default_factors "week" "day"), some 0] :=
  ⟨by decide, rfl, rfl⟩

/-- C7 amended: a timestamp whose weekday label is in none of the group
sets keeps the raw value 0.0 silently: the call raises nothing and the
`isnull().any()` diagnostic never fires (the working column is
initialised to 0.0, so no slot is ever null). -/
theorem simple_profile_no_unclassified_diagnostic (st : LoadState) (A : ℚ) (a : Args)
    (i : Nat) (r : Row)
    (hv : checkFactors a.profile_factors = Except.ok ())
    (hi : st.index[i]? = some r)
    (hw : weekB a r = false) (hwe : weekendB a r = false)
    (hh : holidayB a r = false) :
    (simple_profile st A a).2.map (fun res => res.nanLogged) = Except.ok false ∧
      (simple_profile st A a).1.ind[i]? = some (some 0) := by
  constructor
  · simp only [simple_profile, hv, Except.map]
    exact congrArg Except.ok (indColumn_no_none a st.index)
  · rw [simple_profile_ind st A a hv, List.getElem?_map, hi, Option.map_some']
    simp [rowFactor, hw, hwe, hh]

/-- C7 amended witness: the second row of `unmatchedSt` carries the
unclassifiable label 9. -/
theorem simple_profile_no_unclassified_diagnostic_witness :
    (simple_profile unmatchedSt 100 defaultArgs).2.map (fun res => res.nanLogged) =
        Except.ok false ∧
      (simple_profile unmatchedSt 100 defaultArgs).1.ind[1]? = some (some 0) :=
  simple_profile_no_unclassified_diagnostic unmatchedSt 100 defaultArgs 1 ⟨30000, 9⟩
    rfl rfl (by decide) (by decide) (by decide)

/-- C8: the weekday classification attached at construction is never
modified by `simple_profile`: after any sequence of calls on the same
generator, the index together with its `weekday` column — and the
sampling frequency — equal their values right after construction; only
the `ind` output column is written. -/
theorem weekday_classification_immutable (dt_index : List Timestamp) (fn : Nat)
    (hol : List Int) (his : Bool) (calls : List (ℚ × Args)) :
    (runCalls (construct dt_index fn hol his) calls).index =
        (construct dt_index fn hol his).index ∧
      (runCalls (construct dt_index fn hol his) calls).freqNanos =
        (construct dt_index fn hol his).freqNanos :=
  runCalls_preserves _ _

/-- C9: `simple_profile` is deterministic (it is a pure function of the
state and its arguments) and history-independent: its returned value
after any sequence of earlier calls on the same instance equals its
value on the fresh instance, because each call resets the working
column to 0.0 before reassigning it and reads nothing else that earlier
calls could have written. -/
theorem simple_profile_history_independent (st : LoadState) (prior : List (ℚ × Args))
    (A : ℚ) (a : Args) :
    (simple_profile (runCalls st prior) A a).2 = (simple_profile st A a).2 :=
  simple_profile_snd_congr _ _ A a (runCalls_preserves st prior).1
    (runCalls_preserves st prior).2

/-- C10: when the configured group sets overlap, the factor written
last wins: the timestamp's factor comes from the last matching group in
the source's write order week → weekend → holiday, and a timestamp
matched by both the day and the night window receives the night factor
of that group (the night write of each group comes last). -/
theorem simple_profile_last_writer_wins (st : LoadState) (A : ℚ) (a : Args) (i : Nat)
    (r : Row) (hv : checkFactors a.profile_factors = Except.ok ())
    (hr : st.index[i]? = some r)
    (hm : weekB a r = true ∨ weekendB a r = true ∨ holidayB a r = true)
    (hw : dayB a r = true ∨ nightB a r = true) :
    (simple_profile st A a).1.ind[i]? =
      some (some (getF a.profile_factors
        (if holidayB a r then "holiday" else if weekendB a r then "weekend" else "week")
        (if nightB a r then "night" else "day"))) := by
  rw [simple_profile_ind st A a hv, List.getElem?_map, hr, Option.map_some']
  exact congrArg some (rowFactor_priority a r hm hw)

/-- C10 witness: label 5 lies in both the week and the (overlapping)
weekend set; the day-window row receives the weekend day factor. -/
theorem simple_profile_last_writer_wins_witness :
    (simple_profile overlapSt 1 overlapArgs).1.ind[0]? =
      some (some (getF overlapArgs.profile_factors
        (if holidayB overlapArgs ⟨30000, 5⟩ then "holiday"
          else if weekendB overlapArgs ⟨30000, 5⟩ then "weekend" else "week")
        (if nightB overlapArgs ⟨30000, 5⟩ then "night" else "day"))) :=
  simple_profile_last_writer_wins overlapSt 1 overlapArgs 0 ⟨30000, 5⟩ rfl rfl
    (Or.inl (by decide)) (Or.inl (by decide))

end Demandlib
